import Mathlib

/-!
Verification of the audio-decoding path of the CodeSensei application.

The in-scope code is the `playVoice` callback of the App component and the
`generateSenseiVoice` wrapper in `services/geminiService.ts`.  `playVoice`
receives a base64 payload, decodes it with the browser's `atob`, reinterprets
the resulting bytes as an `Int16Array`, normalizes each 16-bit sample by
dividing by 32768.0, and hands a one-channel 24000 Hz buffer to the Web Audio
context, which is lazily created on first use and cached in a ref.

Modelling decisions, each justified by the host-language semantics:

* `atob` implements the WHATWG forgiving-base64 decode: ASCII whitespace is
  stripped; when the remaining length is a multiple of 4, up to two trailing
  `=` characters are removed; a remaining length congruent to 1 mod 4 or any
  character outside the base64 alphabet is an error (`none`, the thrown
  `InvalidCharacterError`); otherwise every 4 sextets yield 3 bytes, a final
  group of 3 sextets yields 2 bytes and a final group of 2 yields 1 byte.
  `Uint8Array.from(binary, c => c.charCodeAt(0))` turns the binary string
  into exactly that byte list, so `atob` here returns the bytes directly.

* `new Int16Array(bytes.buffer)` requires the buffer's byte length to be a
  multiple of 2 (element size); otherwise the constructor throws a
  RangeError.  `int16FromBytes` returns `none` in that case.  Elements are
  read little-endian (the platform byte order of every supported host, and
  the encoding named by the repository's own documentation), two's
  complement.

* `dataInt16[i] / 32768.0` divides an integer of magnitude at most 2^15 by
  2^15; this is exact in binary64 floating point, so rational arithmetic is
  a faithful model and `normalize` returns a rational.

* `ctx.createBuffer(1, dataInt16.length, 24000)` must, per the Web Audio
  API, throw a NotSupportedError when its length argument is zero: a
  payload that decodes to zero samples (for example a whitespace-only
  base64 string, which `atob` accepts as empty) therefore raises an error
  and plays nothing.

* The `AudioContext` stored in `audioContextRef` is modelled as a value
  carrying its sample rate; the ref cell is threaded explicitly as an
  `Option AudioCtx` argument and result.  A `playVoice` call reports the
  updated ref, the list of buffers handed to a started source (empty when
  nothing plays), and the error it throws to its caller, if any.
-/

namespace CodeSensei

/-- A character the forgiving-base64 decoder strips before decoding:
ASCII tab, line feed, form feed, carriage return or space. -/
def isB64Whitespace (c : Char) : Bool :=
  c.toNat == 9 || c.toNat == 10 || c.toNat == 12 || c.toNat == 13 || c.toNat == 32

/-- Position of a character in the standard base64 alphabet
`A-Z a-z 0-9 + /`, or `none` for a character outside it. -/
def b64Index (c : Char) : Option Nat :=
  if 65 ≤ c.toNat ∧ c.toNat ≤ 90 then some (c.toNat - 65)
  else if 97 ≤ c.toNat ∧ c.toNat ≤ 122 then some (c.toNat - 97 + 26)
  else if 48 ≤ c.toNat ∧ c.toNat ≤ 57 then some (c.toNat - 48 + 52)
  else if c.toNat = 43 then some 62
  else if c.toNat = 47 then some 63
  else none

/-- Remove one or two trailing `=` padding characters, as the forgiving
decode does when the input length is a multiple of 4. -/
def stripPad (l : List Char) : List Char :=
  match l.reverse with
  | '=' :: '=' :: rest => rest.reverse
  | '=' :: rest => rest.reverse
  | _ => l

/-- Turn a list of sextet values (each < 64) into bytes: each full group of
4 sextets gives 3 bytes; a final group of 3 gives 2 bytes, of 2 gives 1
byte (leftover low bits are discarded, as in the forgiving decode). -/
def decodeSextets : List Nat → List Nat
  | a :: b :: c :: d :: rest =>
      (a * 4 + b / 16) :: ((b % 16) * 16 + c / 4) :: ((c % 4) * 64 + d) ::
        decodeSextets rest
  | [a, b, c] => [a * 4 + b / 16, (b % 16) * 16 + c / 4]
  | [a, b] => [a * 4 + b / 16]
  | _ => []

/-- The browser `atob`, source line `const binary = atob(base64)` composed
with `Uint8Array.from(binary, c => c.charCodeAt(0))`: WHATWG
forgiving-base64 decode of a string into a byte list, `none` when the
input is not valid base64 (the thrown `InvalidCharacterError`). -/
def atob (s : String) : Option (List Nat) :=
  let chars := s.data.filter (fun c => !isB64Whitespace c)
  let trimmed := if chars.length % 4 = 0 then stripPad chars else chars
  if trimmed.length % 4 = 1 then none
  else (trimmed.mapM b64Index).map decodeSextets

/-- Character of the standard base64 alphabet at a given index (< 64).
Used by the round-trip vector to model the test's encoding step. -/
def b64Char (n : Nat) : Char :=
  Char.ofNat
    (if n < 26 then 65 + n
     else if n < 52 then 97 + (n - 26)
     else if n < 62 then 48 + (n - 52)
     else if n = 62 then 43 else 47)

/-- Standard base64 encoding of a byte list, with `=` padding: the browser
`btoa`, the inverse direction of the round-trip property. -/
def btoaChars : List Nat → List Char
  | b0 :: b1 :: b2 :: rest =>
      b64Char (b0 / 4) :: b64Char ((b0 % 4) * 16 + b1 / 16) ::
        b64Char ((b1 % 16) * 4 + b2 / 64) :: b64Char (b2 % 64) :: btoaChars rest
  | [b0, b1] =>
      [b64Char (b0 / 4), b64Char ((b0 % 4) * 16 + b1 / 16),
       b64Char ((b1 % 16) * 4), '=']
  | [b0] => [b64Char (b0 / 4), b64Char ((b0 % 4) * 16), '=', '=']
  | [] => []

/-- String-valued base64 encoder over `btoaChars`. -/
def btoa (bytes : List Nat) : String :=
  String.mk (btoaChars bytes)

/-- Two little-endian bytes read as one signed 16-bit two's-complement
integer, the element read of `Int16Array`. -/
def toInt16 (lo hi : Nat) : Int :=
  let u := lo + 256 * hi
  if u < 32768 then (u : Int) else (u : Int) - 65536

/-- The source line `const dataInt16 = new Int16Array(bytes.buffer)`: the
constructor throws a RangeError (`none`) when the buffer's byte length is
odd, and otherwise reads consecutive little-endian 16-bit integers. -/
def int16FromBytes : List Nat → Option (List Int)
  | [] => some []
  | [_] => none
  | lo :: hi :: rest => (int16FromBytes rest).map (fun tl => toInt16 lo hi :: tl)

/-- Little-endian byte pair of a signed 16-bit sample, the write direction
used to build the round-trip test vector. -/
def int16ToBytes (s : Int) : List Nat :=
  [((s % 65536).toNat) % 256, ((s % 65536).toNat) / 256]

/-- Byte sequence of a little-endian 16-bit PCM sample list. -/
def pcmToBytes (samples : List Int) : List Nat :=
  (samples.map int16ToBytes).flatten

/-- The source line `normalizedData[i] = dataInt16[i] / 32768.0`.  The
division of a 16-bit integer by 2^15 is exact in binary64, so the rational
value `s / 32768` is the exact float the code computes; it is written with
`mkRat` so that concrete runs reduce, and proved equal to `(s : Q) / 32768`
in the normalization theorem. -/
def normalize (s : Int) : ℚ :=
  mkRat s 32768

/-- The lazily created `AudioContext`; the code constructs it with
`{ sampleRate: 24000 }`. -/
structure AudioCtx where
  sampleRate : Nat
deriving DecidableEq, Repr

/-- The buffer built by `ctx.createBuffer(1, dataInt16.length, 24000)` and
filled through `channelData.set(normalizedData)`. -/
structure AudioBuffer where
  numChannels : Nat
  length : Nat
  sampleRate : Nat
  channel0 : List ℚ
deriving DecidableEq, Repr

/-- The exceptions a `playVoice` call can propagate: `decodeError` is the
`InvalidCharacterError` of `atob` (the spec's `DecodeError`), `rangeError`
the RangeError of the `Int16Array` constructor on an odd-length buffer,
and `notSupportedError` the NotSupportedError that
`ctx.createBuffer(1, 0, 24000)` must throw when the decoded payload holds
zero samples (the Web Audio API requires a strictly positive length). -/
inductive PlayError where
  | decodeError
  | rangeError
  | notSupportedError
deriving DecidableEq, Repr

/-- Observable outcome of one `playVoice` call: the content of
`audioContextRef` afterwards, the buffers handed to a started source
(`source.start()`), and the error propagated to the caller, if any. -/
structure PlayResult where
  ctxAfter : Option AudioCtx
  started : List AudioBuffer
  error : Option PlayError
deriving DecidableEq, Repr

/-- JavaScript falsiness of the `base64` parameter in
`if (!isVoiceEnabled || !base64) return`: an absent (`undefined`) payload
and the empty string are the falsy cases. -/
def falsyPayload : Option String → Bool
  | none => true
  | some s => s = ""

/-- The `playVoice` callback of the App component.  The voice-enabled flag
and the ref cell content are explicit arguments; the payload is `none`
when the caller passes `undefined`.  Control flow follows the source:
guard, lazy context creation, `atob`, `Int16Array` reinterpretation,
`createBuffer` (which throws NotSupportedError when the sample count is
zero, before any normalization is observable), normalization, buffer
construction, `source.start()`. -/
def playVoice (isVoiceEnabled : Bool) (ctxRef : Option AudioCtx)
    (payload : Option String) : PlayResult :=
  if !isVoiceEnabled || falsyPayload payload then
    { ctxAfter := ctxRef, started := [], error := none }
  else
    let ctx := ctxRef.getD { sampleRate := 24000 }
    match atob (payload.getD ("")) with
    | none => { ctxAfter := some ctx, started := [], error := some PlayError.decodeError }
    | some bytes =>
      match int16FromBytes bytes with
      | none => { ctxAfter := some ctx, started := [], error := some PlayError.rangeError }
      | some dataInt16 =>
        if dataInt16.length = 0 then
          { ctxAfter := some ctx, started := [],
            error := some PlayError.notSupportedError }
        else
          { ctxAfter := some ctx,
            started := [{ numChannels := 1, length := dataInt16.length,
                          sampleRate := 24000,
                          channel0 := dataInt16.map normalize }],
            error := none }

/-- The `inlineData` object of a provider response part; its `data` field
may be absent. -/
structure InlineData where
  data : Option String
deriving DecidableEq, Repr

/-- One part of a provider response content; `inlineData` may be absent. -/
structure GenPart where
  inlineData : Option InlineData
deriving DecidableEq, Repr

/-- The `content` object of a candidate; its `parts` array may be absent. -/
structure GenContent where
  parts : Option (List GenPart)
deriving DecidableEq, Repr

/-- One candidate of a provider response; its `content` may be absent. -/
structure Candidate where
  content : Option GenContent
deriving DecidableEq, Repr

/-- The provider response consumed by `generateSenseiVoice`; the
`candidates` array may be absent. -/
structure GenerateContentResponse where
  candidates : Option (List Candidate)
deriving DecidableEq, Repr

/-- The optional-chaining expression
`response.candidates?.[0]?.content?.parts?.[0]?.inlineData?.data`:
`none` as soon as any level is absent or an index is out of range. -/
def inlineAudioData (response : GenerateContentResponse) : Option String := do
  let cs ← response.candidates
  let c0 ← cs.head?
  let content ← c0.content
  let ps ← content.parts
  let p0 ← ps.head?
  let idata ← p0.inlineData
  idata.data

/-- The return expression of `generateSenseiVoice` in
`services/geminiService.ts`: the extracted inline audio data, with `|| ''`
collapsing an absent (or empty) result to the empty string.  The network
call itself is opaque; the modelled behavior is the handling of its
response value. -/
def generateSenseiVoice (response : GenerateContentResponse) : String :=
  match inlineAudioData response with
  | none => ""
  | some d => d

/-- Reinterpreting an even number of bytes as 16-bit integers succeeds and
yields one sample per byte pair. -/
theorem int16FromBytes_length_even :
    ∀ bytes : List Nat, bytes.length % 2 = 0 →
      (int16FromBytes bytes).map List.length = some (bytes.length / 2)
  | [], _ => rfl
  | [_], h => absurd h (by simp)
  | lo :: hi :: rest, h => by
    have h2 : rest.length % 2 = 0 := by
      simp only [List.length_cons] at h
      omega
    have ih := int16FromBytes_length_even rest h2
    cases hr : int16FromBytes rest with
    | none => rw [hr] at ih; exact absurd ih (by simp [Option.map_none'])
    | some tl =>
      rw [hr] at ih
      simp only [Option.map_some'] at ih
      simp only [int16FromBytes, hr, Option.map_some', List.length_cons]
      simp only [Option.some.injEq] at ih ⊢
      omega

/-- Reinterpreting an odd number of bytes as 16-bit integers fails: the
`Int16Array` constructor throws a RangeError. -/
theorem int16FromBytes_odd :
    ∀ bytes : List Nat, bytes.length % 2 = 1 → int16FromBytes bytes = none
  | [], h => absurd h (by simp)
  | [_], _ => rfl
  | _ :: _ :: rest, h => by
    have h2 : rest.length % 2 = 1 := by
      simp only [List.length_cons] at h
      omega
    simp only [int16FromBytes, int16FromBytes_odd rest h2, Option.map_none']

/-- A payload is falsy exactly when it is absent or the empty string. -/
theorem falsyPayload_eq_false {s : String} (h : s ≠ "") :
    falsyPayload (some s) = false := by
  simp only [falsyPayload, decide_eq_false_iff_not]
  exact h

/-- A string whose forgiving-base64 decode fails is not empty. -/
theorem atob_ne_empty_of_none {s : String} (h : atob s = none) : s ≠ "" := by
  intro hs
  subst hs
  exact absurd h (by decide)

/-- A string that decodes to an odd number of bytes is not empty. -/
theorem atob_ne_empty_of_odd {s : String} {bytes : List Nat}
    (h : atob s = some bytes) (hodd : bytes.length % 2 = 1) : s ≠ "" := by
  intro hs
  subst hs
  have : bytes = [] := by
    have h0 : atob ("") = some [] := by decide
    rw [h0] at h
    exact (Option.some.injEq _ _ ▸ h).symm
  subst this
  simp at hodd

/-- On an enabled, non-empty call the guard falls through and the call is
determined by the decode pipeline; the context is created (or reused) in
every branch. -/
theorem playVoice_enabled_nonempty {s : String} (ref : Option AudioCtx)
    (h : s ≠ "") :
    playVoice true ref (some s) =
      match atob s with
      | none =>
        { ctxAfter := some (ref.getD { sampleRate := 24000 }), started := [],
          error := some PlayError.decodeError }
      | some bytes =>
        match int16FromBytes bytes with
        | none =>
          { ctxAfter := some (ref.getD { sampleRate := 24000 }), started := [],
            error := some PlayError.rangeError }
        | some dataInt16 =>
          if dataInt16.length = 0 then
            { ctxAfter := some (ref.getD { sampleRate := 24000 }),
              started := [], error := some PlayError.notSupportedError }
          else
            { ctxAfter := some (ref.getD { sampleRate := 24000 }),
              started := [{ numChannels := 1, length := dataInt16.length,
                            sampleRate := 24000,
                            channel0 := dataInt16.map normalize }],
              error := none } := by
  simp only [playVoice, falsyPayload_eq_false h, Bool.not_true, Bool.or_false,
    Bool.false_eq_true, if_false, Option.getD_some]

/-- C1 counterexample: the payload `AAAA` decodes to 3 raw bytes, and the
call raises a RangeError (the `Int16Array` constructor rejects the
odd-length buffer) instead of dropping the trailing byte and yielding one
sample with no error, as the claim states. -/
theorem c1_counterexample :
    atob ("AAAA") = some [0, 0, 0] ∧
    playVoice true none (some ("AAAA")) =
      { ctxAfter := some { sampleRate := 24000 }, started := [],
        error := some PlayError.rangeError } := by
  exact ⟨by decide, by decide⟩

/-- C1 (amended): for every base64 payload that decodes to an odd number of
raw bytes, the call raises a RangeError from the `Int16Array`
reinterpretation — it does not drop the final unpaired byte — and no
playback occurs. -/
theorem c1_odd_bytes_range_error (s : String) (bytes : List Nat)
    (ref : Option AudioCtx) (hb : atob s = some bytes)
    (hodd : bytes.length % 2 = 1) :
    playVoice true ref (some s) =
      { ctxAfter := some (ref.getD { sampleRate := 24000 }), started := [],
        error := some PlayError.rangeError } := by
  simp only [playVoice_enabled_nonempty ref (atob_ne_empty_of_odd hb hodd),
    hb, int16FromBytes_odd bytes hodd]

/-- C1 witness: the amended statement evaluated at the payload `AAAA`,
which decodes to the 3 bytes `[0, 0, 0]`. -/
theorem c1_odd_bytes_range_error_witness :
    playVoice true none (some ("AAAA")) =
      { ctxAfter := some { sampleRate := 24000 }, started := [],
        error := some PlayError.rangeError } :=
  c1_odd_bytes_range_error ("AAAA") [0, 0, 0] none (by decide) (by decide)

/-- C2: every signed 16-bit sample is normalized to exactly `s / 32768`;
the result lies in the half-open range `[-1, 1)`, with `-32768` mapped to
`-1` and `32767` to `32767 / 32768`, never `+1`; mapping `normalize` over
the PCM buffer preserves its length and ordering. -/
theorem c2_normalize_properties :
    (∀ s : Int, -32768 ≤ s → s ≤ 32767 →
        normalize s = (s : ℚ) / 32768 ∧ -1 ≤ normalize s ∧ normalize s < 1) ∧
    normalize (-32768) = -1 ∧
    normalize 32767 = 32767 / 32768 ∧
    (∀ pcm : List Int, (pcm.map normalize).length = pcm.length ∧
        ∀ i : Nat, (pcm.map normalize)[i]? = pcm[i]?.map normalize) := by
  have hdiv : ∀ s : Int, normalize s = (s : ℚ) / 32768 := by
    intro s
    simp [normalize, Rat.mkRat_eq_div]
  refine ⟨fun s hlo hhi => ⟨hdiv s, ?_, ?_⟩, by decide, ?_,
    fun pcm => ⟨by simp, fun i => by simp⟩⟩
  · rw [hdiv s, le_div_iff₀ (by norm_num)]
    have : ((-32768 : Int) : ℚ) ≤ (s : ℚ) := by exact_mod_cast hlo
    push_cast at this ⊢
    linarith
  · rw [hdiv s, div_lt_one (by norm_num)]
    have : (s : ℚ) ≤ ((32767 : Int) : ℚ) := by exact_mod_cast hhi
    push_cast at this ⊢
    linarith
  · rw [hdiv 32767]
    norm_num

/-- C2 witness: the normalization bounds evaluated at the sample 16384. -/
theorem c2_normalize_properties_witness :
    normalize 16384 = ((16384 : Int) : ℚ) / 32768 ∧
    -1 ≤ normalize 16384 ∧ normalize 16384 < 1 :=
  c2_normalize_properties.1 16384 (by decide) (by decide)

/-- C3: a payload that is not valid base64 makes the call propagate a
DecodeError to its caller — the error appears in the result, nothing is
recovered internally — and no playback is started. -/
theorem c3_invalid_base64_decode_error (s : String) (ref : Option AudioCtx)
    (h : atob s = none) :
    playVoice true ref (some s) =
      { ctxAfter := some (ref.getD { sampleRate := 24000 }), started := [],
        error := some PlayError.decodeError } := by
  rw [playVoice_enabled_nonempty ref (atob_ne_empty_of_none h), h]

/-- C3 witness: the malformed payload `!` raises a DecodeError and starts
no playback. -/
theorem c3_invalid_base64_decode_error_witness :
    playVoice true none (some ("!")) =
      { ctxAfter := some { sampleRate := 24000 }, started := [],
        error := some PlayError.decodeError } :=
  c3_invalid_base64_decode_error ("!") none (by decide)

/-- C4: an empty or absent payload makes the call a no-op — no error, no
context change, no playback. -/
theorem c4_empty_or_absent_noop (e : Bool) (ref : Option AudioCtx) :
    playVoice e ref none = { ctxAfter := ref, started := [], error := none } ∧
    playVoice e ref (some ("")) =
      { ctxAfter := ref, started := [], error := none } := by
  constructor <;> simp [playVoice, falsyPayload]

/-- C5: a valid base64 payload decoding to an even number `n` of bytes
yields a sample buffer of exactly `n / 2` samples. -/
theorem c5_even_bytes_half_samples (s : String) (bytes : List Nat)
    (_h : atob s = some bytes) (heven : bytes.length % 2 = 0) :
    (int16FromBytes bytes).map List.length = some (bytes.length / 2) :=
  int16FromBytes_length_even bytes heven

/-- C5 witness: the payload `AAA=` decodes to 2 bytes and yields 1
sample. -/
theorem c5_even_bytes_half_samples_witness :
    atob ("AAA=") = some [0, 0] ∧
    (int16FromBytes [0, 0]).map List.length = some 1 :=
  ⟨by decide, c5_even_bytes_half_samples ("AAA=") [0, 0] (by decide) (by decide)⟩

/-- C6 counterexample: the single-space payload decodes successfully to
zero bytes and zero samples, yet no playback buffer of the claimed shape
is constructed: `createBuffer(1, 0, 24000)` throws a NotSupportedError,
nothing starts and the error propagates. -/
theorem c6_counterexample :
    atob (" ") = some [] ∧ int16FromBytes [] = some [] ∧
    playVoice true none (some (" ")) =
      { ctxAfter := some { sampleRate := 24000 }, started := [],
        error := some PlayError.notSupportedError } := by
  exact ⟨by decide, by decide, by decide⟩

/-- C6 (amended): a payload that decodes to one or more samples produces
exactly one started buffer with 1 channel, length equal to the decoded
sample count, a fixed 24000 Hz sample rate, and the normalized samples in
source order as its single channel; a payload that decodes to zero
samples makes `createBuffer(1, 0, 24000)` throw a NotSupportedError and
nothing plays. -/
theorem c6_buffer_shape (s : String) (bytes : List Nat) (dataInt16 : List Int)
    (ref : Option AudioCtx) (hs : s ≠ "") (hb : atob s = some bytes)
    (hd : int16FromBytes bytes = some dataInt16) :
    (dataInt16 ≠ [] →
      playVoice true ref (some s) =
        { ctxAfter := some (ref.getD { sampleRate := 24000 }),
          started := [{ numChannels := 1, length := dataInt16.length,
                        sampleRate := 24000,
                        channel0 := dataInt16.map normalize }],
          error := none }) ∧
    (dataInt16 = [] →
      playVoice true ref (some s) =
        { ctxAfter := some (ref.getD { sampleRate := 24000 }), started := [],
          error := some PlayError.notSupportedError }) := by
  constructor
  · intro hnz
    simp only [playVoice_enabled_nonempty ref hs, hb, hd]
    rw [if_neg (fun h => hnz (List.length_eq_zero.mp h))]
  · intro hz
    subst hz
    simp only [playVoice_enabled_nonempty ref hs, hb, hd]
    rw [if_pos (show ([] : List Int).length = 0 from rfl)]

/-- C6 witness: the payload `AAA=` decodes to the single sample 0 and
produces a one-channel, length-1, 24000 Hz buffer. -/
theorem c6_buffer_shape_witness :
    playVoice true none (some ("AAA=")) =
      { ctxAfter := some { sampleRate := 24000 },
        started := [{ numChannels := 1, length := 1, sampleRate := 24000,
                      channel0 := [normalize 0] }],
        error := none } :=
  (c6_buffer_shape ("AAA=") [0, 0] [0] none (by decide) (by decide)
    (by decide)).1 (by decide)

/-- C7: base64-encoding the little-endian bytes of the samples
`[0, 16384, -16384, 32767, -32768]`, then decoding and normalizing,
reproduces the bytes and the exact float sequence
`[0, 1/2, -1/2, 32767/32768, -1]` in the started buffer. -/
theorem c7_roundtrip :
    atob (btoa (pcmToBytes [0, 16384, -16384, 32767, -32768])) =
      some (pcmToBytes [0, 16384, -16384, 32767, -32768]) ∧
    (playVoice true none
        (some (btoa (pcmToBytes [0, 16384, -16384, 32767, -32768])))).started =
      [{ numChannels := 1, length := 5, sampleRate := 24000,
         channel0 := [0, 1 / 2, -(1 / 2), 32767 / 32768, -1] }] := by
  constructor
  · decide
  · have h : (playVoice true none
        (some (btoa (pcmToBytes [0, 16384, -16384, 32767, -32768])))).started =
        [{ numChannels := 1, length := 5, sampleRate := 24000,
           channel0 := [normalize 0, normalize 16384, normalize (-16384),
                        normalize 32767, normalize (-32768)] }] := by decide
    rw [h]
    norm_num [normalize, Rat.mkRat_eq_div]

/-- C8 counterexample: a session whose only call carries the malformed
payload `!!` creates the playback context even though the call raises a
DecodeError and never reaches playback, so the context is not created on
a call that reaches playback. -/
theorem c8_counterexample :
    (playVoice true none (some ("!!"))).ctxAfter =
      some { sampleRate := 24000 } ∧
    (playVoice true none (some ("!!"))).started = [] ∧
    (playVoice true none (some ("!!"))).error = some PlayError.decodeError := by
  exact ⟨by decide, by decide, by decide⟩

/-- C8 (amended): at most one playback context exists per session: it is
created lazily on the first call that passes the voice-enabled/non-empty
guard — even when decoding then fails before playback — reused unchanged
by every later call, and never torn down. -/
theorem c8_context_lifecycle (e : Bool) (ref : Option AudioCtx)
    (p : Option String) :
    (∀ c, ref = some c → (playVoice e ref p).ctxAfter = some c) ∧
    ((playVoice e ref p).ctxAfter =
      if (!e || falsyPayload p) = true then ref
      else some (ref.getD { sampleRate := 24000 })) := by
  have hctx : (playVoice e ref p).ctxAfter =
      if (!e || falsyPayload p) = true then ref
      else some (ref.getD { sampleRate := 24000 }) := by
    by_cases hg : (!e || falsyPayload p) = true
    · simp [playVoice, hg]
    · rw [if_neg hg]
      simp only [playVoice, if_neg hg]
      split
      · rfl
      · split
        · rfl
        · split <;> rfl
  refine ⟨fun c hc => ?_, hctx⟩
  rw [hctx, hc]
  by_cases hg : (!e || falsyPayload p) = true <;> simp [hg]

/-- C8 witness: a call arriving with an existing context leaves it
unchanged. -/
theorem c8_context_lifecycle_witness :
    (playVoice true (some { sampleRate := 24000 }) (some ("AAAA"))).ctxAfter =
      some { sampleRate := 24000 } :=
  (c8_context_lifecycle true (some { sampleRate := 24000 })
    (some ("AAAA"))).1 { sampleRate := 24000 } rfl

/-- C9: when voice output is disabled, every call is a no-op for every
payload: the guard returns before any decoding, no error is raised, the
context is neither created nor touched, and nothing plays. -/
theorem c9_voice_disabled_noop (ref : Option AudioCtx) (p : Option String) :
    playVoice false ref p = { ctxAfter := ref, started := [], error := none } := by
  simp [playVoice]

/-- C10: when the provider response lacks candidates, content, parts or
inline audio data at any level, `generateSenseiVoice` returns the empty
string (never an absent value), and feeding that result to `playVoice`
is a silent no-op. -/
theorem c10_voice_fallback_empty (r : GenerateContentResponse) (e : Bool)
    (ref : Option AudioCtx) (h : inlineAudioData r = none) :
    generateSenseiVoice r = "" ∧
    playVoice e ref (some (generateSenseiVoice r)) =
      { ctxAfter := ref, started := [], error := none } := by
  have hg : generateSenseiVoice r = "" := by
    simp [generateSenseiVoice, h]
  refine ⟨hg, ?_⟩
  rw [hg]
  simp [playVoice, falsyPayload]

/-- C10 witness: a response with no candidates yields the empty string, and
playing it is a no-op. -/
theorem c10_voice_fallback_empty_witness :
    generateSenseiVoice { candidates := none } = "" ∧
    playVoice true none (some (generateSenseiVoice { candidates := none })) =
      { ctxAfter := none, started := [], error := none } :=
  c10_voice_fallback_empty { candidates := none } true none rfl

end CodeSensei
